import Mathlib

/-!
Verification of the zeldwallet encrypted key-store and signing utilities.

The storage layer (src/storage/constants.ts together with the SecureStorage
class) is embedded as explicit state passing over a `SessionState`; the Web
Crypto service (PBKDF2 key derivation, AES-256-GCM) is an external
collaborator of the repository and is modelled symbolically: a derived key is
the triple of password, salt and iteration count, and an authenticated
ciphertext decrypts exactly under the key that produced it.  IndexedDB
transactions are modelled by their abort semantics: a failed transaction
leaves the persisted stores unchanged.  Byte arrays are `List Nat`.
-/

namespace ZeldWallet

/-- PBKDF2_CONFIG.ITERATIONS from src/storage/constants.ts. -/
def PBKDF2_ITERATIONS : Nat := 600000

/-- PBKDF2_CONFIG.SALT_LENGTH. -/
def SALT_LENGTH : Nat := 16

/-- AES_CONFIG.IV_LENGTH. -/
def IV_LENGTH : Nat := 12

/-- STORAGE_VERSION. -/
def STORAGE_VERSION : Nat := 1

/-- KEY_ENVELOPE_VERSION. -/
def KEY_ENVELOPE_VERSION : Nat := 1

/-- ENCRYPTED_RECORD_VERSION. -/
def ENCRYPTED_RECORD_VERSION : Nat := 1

/-- DATA_KEYS.MNEMONIC, the sentinel data-store key holding the wallet payload. -/
def MNEMONIC_KEY : String := "mnemonic"

/-- Symbolic model of a Web Crypto AES-GCM `CryptoKey`.  PBKDF2 derivation is
deterministic in password, salt and iteration count, so a password-derived key
is represented by that triple; generated or imported raw keys are represented
by their key bytes. -/
inductive MKey where
  | password (pw : String) (salt : List Nat) (iterations : Nat)
  | raw (bytes : List Nat)
deriving DecidableEq, Repr

/-- Symbolic AES-GCM ciphertext: an authenticated ciphertext is opaque but
determines the key that produced it and the plaintext it protects. -/
structure Ctext where
  key : MKey
  plain : List Nat
deriving DecidableEq, Repr

/-- Length in bytes of a symbolic AES-GCM ciphertext (plaintext plus the
16-byte authentication tag); it is never zero. -/
def Ctext.len (c : Ctext) : Nat := c.plain.length + 16

/-- EncryptedData record stored per logical key ({version, iv, ciphertext}).
`version` is optional in legacy records, mirroring `encrypted.version ??
ENCRYPTED_RECORD_VERSION` in normalizeEncryptedData. -/
structure EncryptedData where
  version : Option Nat
  iv : List Nat
  ciphertext : Ctext
deriving DecidableEq, Repr

/-- StorageMetadata row (single row upserted on every mutation). -/
structure StorageMetadata where
  version : Nat
  hasPassword : Bool
  hasBackup : Bool
  lastBackupAt : Option Nat
  pbkdf2Iterations : Option Nat
  createdAt : Nat
  updatedAt : Nat
deriving DecidableEq, Repr

/-- Contents of the META_KEYS.ENCRYPTION_KEY slot: a persisted opaque
CryptoKey, a StoredKeyEnvelope ({version, format: "raw", keyBytes}), or legacy
bare key bytes. -/
inductive StoredKey where
  | cryptoKey (k : MKey)
  | envelope (version : Nat) (keyBytes : List Nat)
  | legacyRaw (bytes : List Nat)
deriving DecidableEq, Repr

/-- The persisted IndexedDB stores: the `data` object store (an association
list from record key to EncryptedData, in insertion order) and the three
fixed slots of the `meta` object store. -/
structure PersistedState where
  data : List (String × EncryptedData)
  salt : Option (List Nat)
  storedKey : Option StoredKey
  metadata : Option StorageMetadata
deriving DecidableEq, Repr

/-- A SecureStorage instance: the persisted stores plus the in-memory fields
`encryptionKey` and `isPasswordProtected`. -/
structure SessionState where
  persisted : PersistedState
  encryptionKey : Option MKey
  isPasswordProtected : Bool
deriving DecidableEq, Repr

/-- Errors thrown by the storage layer.  Each constructor corresponds to one
`throw new Error(...)` site; the doc of each names the message and, where the
spec assigns one, the spec taxonomy class. -/
inductive StoreError where
  /-- "Storage not initialized". -/
  | notInit
  /-- "Storage already has a password" (ConflictError in the spec taxonomy). -/
  | alreadyHasPassword
  /-- "Storage does not have a password" (ConflictError). -/
  | noPassword
  /-- "Password required to unlock storage" (UnauthorizedError). -/
  | passwordRequired
  /-- "Wallet created without password. Unlock, then call setPassword()."
  (ConflictError). -/
  | passwordlessConflict
  /-- "No wallet found. Create or restore a wallet first." -/
  | noWalletFound
  /-- "Salt not found" / "Missing salt for password-protected storage"
  (ConfigurationError). -/
  | saltNotFound
  /-- "Invalid password" thrown by changePassword/removePassword when export
  under the candidate key fails. -/
  | invalidPassword
  /-- "Decryption failed: data may be corrupted or password is incorrect"
  (DecryptionError). -/
  | decryptionFailed
  /-- "Unsupported encrypted payload version". -/
  | unsupportedVersion
  /-- "Invalid encrypted payload: IV missing or wrong length". -/
  | invalidIv
  /-- "Invalid encrypted payload: ciphertext missing". -/
  | invalidCiphertext
  /-- "Missing encryption key for passwordless wallet; storage may be
  corrupted.". -/
  | missingEncryptionKey
  /-- An injected failure of a Web Crypto step or of an IndexedDB
  transaction, used to model forced mid-migration failures. -/
  | injected
deriving DecidableEq, Repr

/-- Outcome of a storage operation: success with the new instance state, or a
thrown error together with the instance state left behind by the failure
path. -/
inductive OpOut where
  | ok (s : SessionState)
  | err (e : StoreError) (s : SessionState)
deriving DecidableEq, Repr

/-- Ambient configuration of a SecureStorage instance: the constructor
override `options.pbkdf2Iterations`, the resolved result of
getEnvIterationOverride() (quantifying over it covers every environment), the
result of isProductionLike(), and whether the platform can persist an opaque
CryptoKey into IndexedDB (getOrCreateStoredKey falls back to a raw envelope
when it cannot). -/
structure StorageConfig where
  pbkdf2Iterations : Option Nat
  envOverride : Option Nat
  prodLike : Bool
  canPersistCryptoKey : Bool
deriving DecidableEq, Repr

/-- Injected failure points for the password-lifecycle operations.
`encryptFailAt` makes the n-th call to the instance `encrypt` method throw
(counted from 0 across the whole operation, like a vitest spy);
`deriveFail` makes the derivation of the new password key throw;
`generateFail` makes the passwordless key generation/export in removePassword
throw; `txFailAt` makes the n-th IndexedDB transaction of the operation fail
(the transaction then commits nothing). -/
structure FailSpec where
  deriveFail : Bool
  generateFail : Bool
  encryptFailAt : Option Nat
  txFailAt : Option Nat
deriving DecidableEq, Repr

/-- A FailSpec with no injected failures. -/
def FailSpec.none : FailSpec :=
  { deriveFail := false, generateFail := false, encryptFailAt := Option.none,
    txFailAt := Option.none }

/-- Randomness drawn by an operation: the fresh salt from randomBytes, the
fresh key bytes from generateKey/exportKey, and the per-encrypt-call IVs
(indexed by the same call counter as `FailSpec.encryptFailAt`). -/
structure Entropy where
  freshSalt : List Nat
  freshKeyBytes : List Nat
  ivs : Nat → List Nat

/-- AES-GCM encryption of `data` under `key` with a fresh `iv`
(SecureStorage.encrypt, minus the instance-key lookup). -/
def encryptData (key : MKey) (iv : List Nat) (data : List Nat) : EncryptedData :=
  { version := some ENCRYPTED_RECORD_VERSION, iv := iv, ciphertext := ⟨key, data⟩ }

/-- SecureStorage.decrypt together with normalizeEncryptedData: validate
version, IV length and nonempty ciphertext, then decrypt; an authenticated
decryption succeeds exactly under the producing key. -/
def decryptData (key : MKey) (ed : EncryptedData) : Except StoreError (List Nat) :=
  if ed.version.getD ENCRYPTED_RECORD_VERSION ≠ ENCRYPTED_RECORD_VERSION then
    .error .unsupportedVersion
  else if ed.iv.length ≠ IV_LENGTH then .error .invalidIv
  else if ed.ciphertext.len = 0 then .error .invalidCiphertext
  else if ed.ciphertext.key = key then .ok ed.ciphertext.plain
  else .error .decryptionFailed

/-- deriveKeyFromPassword / deriveAesKeyFromPassword: PBKDF2-HMAC-SHA256
derivation, symbolically the triple of its inputs. -/
def deriveKeyFromPassword (password : String) (salt : List Nat)
    (iterations : Nat) : MKey :=
  .password password salt iterations

/-- Lookup in the `data` object store. -/
def lookupData (data : List (String × EncryptedData)) (k : String) :
    Option EncryptedData :=
  (data.find? (fun e => e.1 = k)).map (·.2)

/-- SecureStorage.hasWalletPayload: a wallet payload exists when the mnemonic
record is present in the data store. -/
def hasWalletPayload (p : PersistedState) : Bool :=
  (lookupData p.data MNEMONIC_KEY).isSome

/-- SecureStorage.exists: delegates to hasWalletPayload. -/
def existsCheck (p : PersistedState) : Bool :=
  hasWalletPayload p

/-- SecureStorage.resolveIterations: persisted metadata wins when it records a
count; otherwise constructor override, then environment override, then the
default, with the production floor applied to the candidate. -/
def resolveIterations (cfg : StorageConfig)
    (metadata : Option StorageMetadata) : Nat :=
  match metadata.bind (·.pbkdf2Iterations) with
  | some n => n
  | none =>
    let candidate :=
      cfg.pbkdf2Iterations.getD (cfg.envOverride.getD PBKDF2_ITERATIONS)
    if cfg.prodLike ∧ candidate < PBKDF2_ITERATIONS then PBKDF2_ITERATIONS
    else candidate

/-- SecureStorage.normalizeIterationsForNewKey. -/
def normalizeIterationsForNewKey (cfg : StorageConfig) (baseIterations : Nat)
    (metadata : Option StorageMetadata) : Nat :=
  match metadata.bind (·.pbkdf2Iterations) with
  | none =>
    if cfg.prodLike then max baseIterations PBKDF2_ITERATIONS
    else baseIterations
  | some mi =>
    max baseIterations (if cfg.prodLike then PBKDF2_ITERATIONS else mi)

/-- The Partial StorageMetadata argument of SecureStorage.updateMetadata; an
absent field (`none`) falls back to the existing row. -/
structure MetadataUpdates where
  hasPassword : Option Bool := Option.none
  hasBackup : Option Bool := Option.none
  lastBackupAt : Option Nat := Option.none
  pbkdf2Iterations : Option Nat := Option.none
deriving DecidableEq, Repr

/-- SecureStorage.updateMetadata: merge the updates over the existing row and
upsert the single metadata row. -/
def updateMetadata (now : Nat) (upd : MetadataUpdates) (p : PersistedState) :
    PersistedState :=
  let existing := p.metadata
  let md : StorageMetadata :=
    { version := (existing.map (·.version)).getD STORAGE_VERSION
      hasPassword := upd.hasPassword.getD ((existing.map (·.hasPassword)).getD false)
      hasBackup := upd.hasBackup.getD ((existing.map (·.hasBackup)).getD false)
      lastBackupAt :=
        match upd.lastBackupAt with
        | some t => some t
        | none => existing.bind (·.lastBackupAt)
      pbkdf2Iterations :=
        match upd.pbkdf2Iterations with
        | some n => some n
        | none => existing.bind (·.pbkdf2Iterations)
      createdAt := (existing.map (·.createdAt)).getD now
      updatedAt := now }
  { p with metadata := some md }

/-- Decrypt every record of the data store under `key`, in store order
(the loop body of exportAllDecrypted); the first failure propagates. -/
def decryptEntries (key : MKey) :
    List (String × EncryptedData) → Except StoreError (List (String × List Nat))
  | [] => .ok []
  | (k, ed) :: rest =>
    match decryptData key ed with
    | .error e => .error e
    | .ok v =>
      match decryptEntries key rest with
      | .error e => .error e
      | .ok tail => .ok ((k, v) :: tail)

/-- SecureStorage.exportAllDecrypted. -/
def exportAllDecrypted (s : SessionState) :
    Except StoreError (List (String × List Nat)) :=
  match s.encryptionKey with
  | none => .error .notInit
  | some key => decryptEntries key s.persisted.data

/-- The pre-encryption loop of the migration operations: encrypt every entry
under the new key, drawing one IV per call; the call counter `i` starts where
the previous loop of the same operation ended and drives the injected
`FailSpec.encryptFailAt` failure. -/
def encryptEntries (fs : FailSpec) (key : MKey) (ivs : Nat → List Nat) :
    Nat → List (String × List Nat) →
    Except StoreError (List (String × EncryptedData))
  | _, [] => .ok []
  | i, (k, v) :: rest =>
    if fs.encryptFailAt = some i then .error .injected
    else
      match encryptEntries fs key ivs (i + 1) rest with
      | .error e => .error e
      | .ok tail => .ok ((k, encryptData key (ivs i) v) :: tail)

/-- SecureStorage.get for a single record. -/
def getRecord (s : SessionState) (k : String) :
    Except StoreError (Option (List Nat)) :=
  match s.encryptionKey with
  | none => .error .notInit
  | some key =>
    match lookupData s.persisted.data k with
    | none => .ok Option.none
    | some ed => (decryptData key ed).map some

/-- SecureStorage.init.  The database is modelled as always open; Web Crypto
steps inside init are not failure-injected (the forced-failure scenarios of
the spec concern the three password-lifecycle migrations).  Mirrors the
control flow of init() line by line: the read-only guard, the
passwordless-conflict guard, salt require-or-create, key derivation and the
metadata upsert in password mode; the password-required guard, the
stale-salt scrub, getOrCreateStoredKey (with materializeStoredKey migration
and the CryptoKey-persistence fallback) and the metadata upsert in
passwordless mode. -/
def init (cfg : StorageConfig) (ent : Entropy) (now : Nat)
    (password : Option String) (readOnly : Bool) (s : SessionState) : OpOut :=
  let metadata := s.persisted.metadata
  let payload := hasWalletPayload s.persisted
  if readOnly ∧ metadata = Option.none ∧ ¬payload then .err .noWalletFound s
  else
    match password with
    | some pw =>
      if payload ∧ (metadata.map (·.hasPassword)) = some false then
        .err .passwordlessConflict s
      else
        let mdHasPw := (metadata.map (·.hasPassword)).getD false
        let saltStep : Except StoreError (List Nat × PersistedState) :=
          if mdHasPw then
            match s.persisted.salt with
            | some sl => .ok (sl, s.persisted)
            | none => .error .saltNotFound
          else
            match s.persisted.salt with
            | some sl => .ok (sl, s.persisted)
            | none =>
              .ok (ent.freshSalt, { s.persisted with salt := some ent.freshSalt })
        match saltStep with
        | .error e => .err e s
        | .ok (salt, p1) =>
          let iterations := resolveIterations cfg metadata
          let key := deriveKeyFromPassword pw salt iterations
          let s1 : SessionState :=
            { persisted := p1, encryptionKey := some key,
              isPasswordProtected := true }
          if readOnly then .ok s1
          else
            .ok { s1 with
                  persisted := updateMetadata now
                    { hasPassword := some true,
                      pbkdf2Iterations := some iterations } p1 }
    | none =>
      if (metadata.map (·.hasPassword)).getD false ∧ payload then
        .err .passwordRequired s
      else
        let p1 :=
          if ¬payload ∧ (metadata.map (·.hasPassword)).getD false ∧ ¬readOnly then
            { s.persisted with salt := Option.none }
          else s.persisted
        let keyStep : Except StoreError (MKey × PersistedState) :=
          match p1.storedKey with
          | some (.cryptoKey k) => .ok (k, p1)
          | some (.envelope _ bytes) =>
            .ok (.raw bytes, { p1 with storedKey := some (.cryptoKey (.raw bytes)) })
          | some (.legacyRaw bytes) =>
            .ok (.raw bytes, { p1 with storedKey := some (.cryptoKey (.raw bytes)) })
          | none =>
            if payload then .error .missingEncryptionKey
            else if cfg.canPersistCryptoKey then
              .ok (.raw ent.freshKeyBytes,
                { p1 with storedKey := some (.cryptoKey (.raw ent.freshKeyBytes)) })
            else
              .ok (.raw ent.freshKeyBytes,
                { p1 with
                  storedKey := some (.envelope KEY_ENVELOPE_VERSION ent.freshKeyBytes) })
        match keyStep with
        | .error e => .err e { s with persisted := p1 }
        | .ok (key, p2) =>
          let s1 : SessionState :=
            { persisted := p2, encryptionKey := some key,
              isPasswordProtected := false }
          if readOnly then .ok s1
          else
            .ok { s1 with
                  persisted := updateMetadata now { hasPassword := some false } p2 }

/-- SecureStorage.setPassword.  Decrypt everything under the current
passwordless key, derive a password key on a fresh salt, pre-encrypt, then
commit data, salt, stored-key removal and metadata in one transaction; any
failure restores the in-memory key and mode, and a failed transaction
commits nothing. -/
def setPassword (cfg : StorageConfig) (fs : FailSpec) (ent : Entropy)
    (now : Nat) (password : String) (s : SessionState) : OpOut :=
  match s.encryptionKey with
  | none => .err .notInit s
  | some _ =>
    if s.isPasswordProtected then .err .alreadyHasPassword s
    else
      match exportAllDecrypted s with
      | .error e => .err e s
      | .ok allData =>
        let previousKey := s.encryptionKey
        let previousHasPassword := s.isPasswordProtected
        let existingMetadata := s.persisted.metadata
        let salt := ent.freshSalt
        let iterations :=
          normalizeIterationsForNewKey cfg
            (resolveIterations cfg existingMetadata) existingMetadata
        if fs.deriveFail then .err .injected s
        else
          let newKey := deriveKeyFromPassword password salt iterations
          let s1 : SessionState := { s with encryptionKey := some newKey }
          match encryptEntries fs newKey ent.ivs 0 allData with
          | .error e =>
            .err e { s1 with encryptionKey := previousKey,
                             isPasswordProtected := previousHasPassword }
          | .ok entries =>
            if fs.txFailAt = some 0 then
              .err .injected
                { s1 with encryptionKey := previousKey,
                          isPasswordProtected := previousHasPassword }
            else
              let md : StorageMetadata :=
                { version := (existingMetadata.map (·.version)).getD STORAGE_VERSION
                  hasPassword := true
                  hasBackup := (existingMetadata.map (·.hasBackup)).getD false
                  lastBackupAt := existingMetadata.bind (·.lastBackupAt)
                  pbkdf2Iterations := some iterations
                  createdAt := (existingMetadata.map (·.createdAt)).getD now
                  updatedAt := now }
              .ok { persisted :=
                      { data := entries, salt := some salt,
                        storedKey := Option.none, metadata := some md },
                    encryptionKey := some newKey, isPasswordProtected := true }

/-- SecureStorage.changePassword.  Verify the old password by decrypting
everything under the key it derives, compute the new iteration count from
the optional override (JavaScript truthiness: an override of 0 is ignored),
derive the new key on a fresh salt inside the guarded block, pre-encrypt,
then commit in one transaction; any failure restores the in-memory key and
mode. -/
def changePassword (cfg : StorageConfig) (fs : FailSpec) (ent : Entropy)
    (now : Nat) (oldPassword newPassword : String) (optIterations : Option Nat)
    (s : SessionState) : OpOut :=
  if ¬s.isPasswordProtected then .err .noPassword s
  else
    let existingMetadata := s.persisted.metadata
    match s.persisted.salt with
    | none => .err .saltNotFound s
    | some salt =>
      let iterations := resolveIterations cfg existingMetadata
      let oldKey := deriveKeyFromPassword oldPassword salt iterations
      let savedKey := s.encryptionKey
      let previousHasPassword := s.isPasswordProtected
      let s1 : SessionState := { s with encryptionKey := some oldKey }
      match exportAllDecrypted s1 with
      | .error _ => .err .invalidPassword { s1 with encryptionKey := savedKey }
      | .ok allData =>
        let newSalt := ent.freshSalt
        let candidateIterations :=
          match optIterations with
          | some r => if r ≠ 0 then max r iterations else iterations
          | none => iterations
        let newIterations :=
          normalizeIterationsForNewKey cfg candidateIterations existingMetadata
        if fs.deriveFail then
          .err .injected
            { s1 with encryptionKey := savedKey,
                      isPasswordProtected := previousHasPassword }
        else
          let newKey := deriveKeyFromPassword newPassword newSalt newIterations
          let s2 : SessionState := { s1 with encryptionKey := some newKey }
          match encryptEntries fs newKey ent.ivs 0 allData with
          | .error e =>
            .err e { s2 with encryptionKey := savedKey,
                             isPasswordProtected := previousHasPassword }
          | .ok entries =>
            if fs.txFailAt = some 0 then
              .err .injected
                { s2 with encryptionKey := savedKey,
                          isPasswordProtected := previousHasPassword }
            else
              let md : StorageMetadata :=
                { version := (existingMetadata.map (·.version)).getD STORAGE_VERSION
                  hasPassword := true
                  hasBackup := (existingMetadata.map (·.hasBackup)).getD false
                  lastBackupAt := existingMetadata.bind (·.lastBackupAt)
                  pbkdf2Iterations := some newIterations
                  createdAt := (existingMetadata.map (·.createdAt)).getD now
                  updatedAt := now }
              .ok { persisted :=
                      { data := entries, salt := some newSalt,
                        storedKey := Option.none, metadata := some md },
                    encryptionKey := some newKey, isPasswordProtected := true }

/-- SecureStorage.removePassword.  Verify the current password, generate a
fresh passwordless key envelope, switch the in-memory key and mode, then
pre-encrypt all data under the new key (in the source this loop runs outside
the guarded block, so its failure propagates without restoring the in-memory
fields) and commit in one transaction.  On a transaction failure the guard
restores the in-memory key and mode, re-puts the saved salt, deletes the
stored-key slot and re-imports every record re-encrypted under the restored
key with fresh IVs (importAllEncrypted, running its own second
transaction). -/
def removePassword (cfg : StorageConfig) (fs : FailSpec) (ent : Entropy)
    (now : Nat) (currentPassword : String) (s : SessionState) : OpOut :=
  if ¬s.isPasswordProtected then .err .noPassword s
  else
    let existingMetadata := s.persisted.metadata
    match s.persisted.salt with
    | none => .err .saltNotFound s
    | some salt =>
      let iterations := resolveIterations cfg existingMetadata
      let currentKey := deriveKeyFromPassword currentPassword salt iterations
      let savedKey := s.encryptionKey
      let savedSalt := salt
      let previousHasPassword := s.isPasswordProtected
      let s1 : SessionState := { s with encryptionKey := some currentKey }
      match exportAllDecrypted s1 with
      | .error _ => .err .invalidPassword { s1 with encryptionKey := savedKey }
      | .ok allData =>
        if fs.generateFail then .err .injected s1
        else
          let raw := ent.freshKeyBytes
          let runtimeKey : MKey := .raw raw
          let s2 : SessionState :=
            { s1 with encryptionKey := some runtimeKey,
                      isPasswordProtected := false }
          match encryptEntries fs runtimeKey ent.ivs 0 allData with
          | .error e => .err e s2
          | .ok entries =>
            if fs.txFailAt = some 0 then
              let s3 : SessionState :=
                { s2 with encryptionKey := savedKey,
                          isPasswordProtected := previousHasPassword }
              let p3 : PersistedState :=
                { s3.persisted with salt := some savedSalt,
                                    storedKey := Option.none }
              match savedKey with
              | none => .err .notInit { s3 with persisted := p3 }
              | some sk =>
                match encryptEntries fs sk ent.ivs allData.length allData with
                | .error e => .err e { s3 with persisted := p3 }
                | .ok entries2 =>
                  if fs.txFailAt = some 1 then
                    .err .injected { s3 with persisted := p3 }
                  else
                    .err .injected
                      { s3 with persisted := { p3 with data := entries2 } }
            else
              let md : StorageMetadata :=
                { version := (existingMetadata.map (·.version)).getD STORAGE_VERSION
                  hasPassword := false
                  hasBackup := false
                  lastBackupAt := Option.none
                  pbkdf2Iterations := Option.none
                  createdAt := (existingMetadata.map (·.createdAt)).getD now
                  updatedAt := now }
              .ok { persisted :=
                      { data := entries, salt := Option.none,
                        storedKey := some (.envelope KEY_ENVELOPE_VERSION raw),
                        metadata := some md },
                    encryptionKey := some runtimeKey,
                    isPasswordProtected := false }

/-- The four mutating operations of the store. -/
inductive LifecycleOp where
  | initOp (password : Option String) (readOnly : Bool)
  | setPasswordOp (password : String)
  | changePasswordOp (oldPassword newPassword : String) (optIterations : Option Nat)
  | removePasswordOp (password : String)
deriving DecidableEq, Repr

/-- Run one mutating operation. -/
def runOp (cfg : StorageConfig) (fs : FailSpec) (ent : Entropy) (now : Nat) :
    LifecycleOp → SessionState → OpOut
  | .initOp pw ro => init cfg ent now pw ro
  | .setPasswordOp pw => setPassword cfg fs ent now pw
  | .changePasswordOp o n i => changePassword cfg fs ent now o n i
  | .removePasswordOp pw => removePassword cfg fs ent now pw

/-- The three password-lifecycle migrations (init excluded). -/
def LifecycleOp.isPasswordLifecycle : LifecycleOp → Bool
  | .initOp _ _ => false
  | _ => true

/-- The read-only flag of an operation (false for everything but a read-only
init). -/
def LifecycleOp.readOnlyFlag : LifecycleOp → Bool
  | .initOp _ ro => ro
  | _ => false

/-- Whether the operation is removePassword. -/
def LifecycleOp.isRemove : LifecycleOp → Bool
  | .removePasswordOp _ => true
  | _ => false

/-- The salt-iff-password invariant of the spec: a salt record exists in the
meta store exactly when the metadata row records hasPassword = true. -/
def saltIffPassword (p : PersistedState) : Prop :=
  p.salt.isSome = (p.metadata.map (·.hasPassword)).getD false

instance (p : PersistedState) : Decidable (saltIffPassword p) := by
  unfold saltIffPassword; infer_instance

/-! ## Password-based encryption helpers (utils/crypto.ts) -/

/-- PasswordEncryptedPayload returned by encryptWithPassword:
{version, salt, iv, ciphertext, iterations?}. -/
structure PasswordEncryptedPayload where
  version : Nat
  salt : List Nat
  iv : List Nat
  ciphertext : Ctext
  iterations : Option Nat
deriving DecidableEq, Repr

/-- deriveAesKeyFromPassword with its
`iterationsOverride ?? PBKDF2_CONFIG.ITERATIONS` default. -/
def deriveAesKeyFromPassword (password : String) (salt : List Nat)
    (iterationsOverride : Option Nat) : MKey :=
  .password password salt (iterationsOverride.getD PBKDF2_ITERATIONS)

/-- encryptWithPassword: a fresh salt and IV are drawn from the CSPRNG (here
passed as arguments, quantifying over every draw), the AES key is derived at
`iterationsOverride ?? PBKDF2_CONFIG.ITERATIONS`, and the envelope records
salt, IV, ciphertext and the iteration count used. -/
def encryptWithPassword (plaintext : List Nat) (password : String)
    (iterationsOverride : Option Nat) (salt iv : List Nat) :
    PasswordEncryptedPayload :=
  let iterations := iterationsOverride.getD PBKDF2_ITERATIONS
  let key := deriveAesKeyFromPassword password salt (some iterations)
  { version := ENCRYPTED_RECORD_VERSION, salt := salt, iv := iv,
    ciphertext := ⟨key, plaintext⟩, iterations := some iterations }

/-- decryptWithPassword on a typed envelope.  normalizeEncryptedPayload is the
identity on typed PasswordEncryptedPayload values; the legacy branch that
slices a bare concatenated Uint8Array has no counterpart in the symbolic
cipher model and only ever applies to payloads not produced by
encryptWithPassword.  The key is re-derived from the envelope salt at
`payload.iterations`. -/
def decryptWithPassword (encrypted : PasswordEncryptedPayload)
    (password : String) : Except StoreError (List Nat) :=
  let key := deriveAesKeyFromPassword password encrypted.salt encrypted.iterations
  if encrypted.ciphertext.key = key then .ok encrypted.ciphertext.plain
  else .error .decryptionFailed

/-! ## Byte comparison (utils/encoding.ts, utils/crypto.ts) -/

/-- bytesEqual from utils/encoding.ts: length check then pointwise loop. -/
def bytesEqual (a b : List Nat) : Bool :=
  if a.length ≠ b.length then false
  else (List.zip a b).all (fun p => p.1 == p.2)

/-- timingSafeEqual from utils/crypto.ts: length check, then the loop
accumulating `diff |= a[i] ^ b[i]` and comparing the accumulator to zero. -/
def timingSafeEqual (a b : List Nat) : Bool :=
  if a.length ≠ b.length then false
  else (List.zip a b).foldl (fun d p => d ||| (p.1 ^^^ p.2)) 0 == 0

/-! ## Message signing (the signing utilities file) -/

/-- stringToBytes: UTF-8 encoding. -/
def stringToBytes (s : String) : List Nat :=
  s.toUTF8.toList.map (·.toNat)

/-- BITCOIN_MESSAGE_PREFIX constant of the signing utilities ("\x18Bitcoin
Signed Message:\n"); the leading 0x18 byte is part of the string. -/
def bitcoinMessageMagic : String := "\x18Bitcoin Signed Message:\n"

/-- encodeVarInt (Bitcoin varint): the source throws "VarInt too large" above
0xffffffff, modelled by `none`.  JavaScript bitwise `>>`/`& 0xff` on values
up to 2^32 - 1 agree with the Nat shift-and-mask used here on every produced
byte. -/
def encodeVarInt (n : Nat) : Option (List Nat) :=
  if n < 0xfd then some [n]
  else if n ≤ 0xffff then some [0xfd, n &&& 0xff, (n >>> 8) &&& 0xff]
  else if n ≤ 0xffffffff then
    some [0xfe, n &&& 0xff, (n >>> 8) &&& 0xff, (n >>> 16) &&& 0xff,
          (n >>> 24) &&& 0xff]
  else none

/-- Uint8Array.prototype.set: overwrite `src.length` bytes of `target`
starting at `offset` (the callers always stay within bounds). -/
def setBytes (target src : List Nat) (offset : Nat) : List Nat :=
  target.take offset ++ src ++ target.drop (offset + src.length)

/-- createMessageHash: assemble prefix, varint-encoded message length and
message bytes into one zero-initialised buffer via three set calls, then
double-SHA256.  SHA-256 itself is the platform primitive, passed as a
function. -/
def createMessageHash (sha256 : List Nat → List Nat) (message : String) :
    Option (List Nat) :=
  let messageBytes := stringToBytes message
  let magic := stringToBytes bitcoinMessageMagic
  match encodeVarInt messageBytes.length with
  | none => none
  | some lengthBytes =>
    let fullMessage :=
      List.replicate (magic.length + lengthBytes.length + messageBytes.length) 0
    let fullMessage := setBytes fullMessage magic 0
    let fullMessage := setBytes fullMessage lengthBytes magic.length
    let fullMessage :=
      setBytes fullMessage messageBytes (magic.length + lengthBytes.length)
    some (sha256 (sha256 fullMessage))

/-- The btoa alphabet. -/
def base64Alphabet : String :=
  "ABCDEFGHIJKLMNOPQRSTUVWXYZabcdefghijklmnopqrstuvwxyz0123456789+/"

/-- One sextet to one base64 character. -/
def base64Char (n : Nat) : Char :=
  base64Alphabet.toList.getD n 'A'

/-- btoa grouping: three bytes to four characters, with padding. -/
def base64Chunks : List Nat → List Char
  | b1 :: b2 :: b3 :: rest =>
    let n := b1 * 65536 + b2 * 256 + b3
    base64Char (n / 262144 % 64) :: base64Char (n / 4096 % 64) ::
      base64Char (n / 64 % 64) :: base64Char (n % 64) :: base64Chunks rest
  | [b1, b2] =>
    let n := b1 * 65536 + b2 * 256
    [base64Char (n / 262144 % 64), base64Char (n / 4096 % 64),
     base64Char (n / 64 % 64), '=']
  | [b1] =>
    let n := b1 * 65536
    [base64Char (n / 262144 % 64), base64Char (n / 4096 % 64), '=', '=']
  | [] => []

/-- bytesToBase64 from utils/encoding.ts (byte list to binary string to
btoa). -/
def bytesToBase64 (bytes : List Nat) : String :=
  String.mk (base64Chunks bytes)

/-- The recoverable signature returned by secp256k1.signAsync: a recovery id
and the 64-byte compact r || s encoding (toCompactRawBytes). -/
structure RecoverableSig where
  recovery : Nat
  compact : List Nat
deriving DecidableEq, Repr

/-- signMessageEcdsa: sign the message hash with the recoverable ECDSA
signer (the secp256k1 primitive, passed as a function), build the 65-byte
buffer [27 + recovery + 4] ++ compact via two set calls into a
zero-initialised Uint8Array(65), and base64-encode it. -/
def signMessageEcdsa (sign : List Nat → List Nat → RecoverableSig)
    (messageHash privateKey : List Nat) : String :=
  let signature := sign messageHash privateKey
  let recoveryFlag := 27 + signature.recovery + 4
  let signatureBytes := List.replicate 65 0
  let signatureBytes := setBytes signatureBytes [recoveryFlag] 0
  let signatureBytes := setBytes signatureBytes signature.compact 1
  bytesToBase64 signatureBytes

/-! ## Taproot PSBT signing guards, modelled from the spec -/

/-- A per-input signing request of signPsbt (inputs[] entry): the requested
sighash types for the input. -/
structure SignInputRequest where
  sighashTypes : Option (List Nat)
deriving DecidableEq, Repr

/-- The Taproot-relevant fields of a PSBT input: the optional 32-byte
tapInternalKey carried by the input and the key embedded in its witness
script, when one is present. -/
structure TaprootInputData where
  tapInternalKey : Option (List Nat)
  witnessScriptKey : Option (List Nat)
deriving DecidableEq, Repr

/-- Errors of the Taproot signing guards.  The spec taxonomy groups Taproot
signing guard failures under IncompatibleInputError; the multiple-sighash
rejection is the hard error its tests match with /sighash/i. -/
inductive SignPsbtError where
  | multipleSighashTypes
  | incompatibleInput
deriving DecidableEq, Repr

/-- Modelled from the spec: the KeyManager.signPsbt implementation
(src/keys/KeyManager.ts in the repository tree) is not among the sources
here; only its tests are.  Spec 4.3: "Taproot inputs: reject more than one
requested sighash type (silent truncation risk) as a hard error; reject a
mismatched tapInternalKey; reject a witness script whose embedded key does
not match the derived key", and Scenario D: a Taproot input with an
unrelated 32-byte tapInternalKey is rejected with IncompatibleInputError and
no signature is produced.  A successful check Schnorr-signs the sighash
digest with the derived key. -/
def signTaprootInput (schnorrSign : List Nat → List Nat)
    (derivedXOnlyKey sighashDigest : List Nat) (req : SignInputRequest)
    (inp : TaprootInputData) : Except SignPsbtError (List Nat) :=
  if (req.sighashTypes.getD []).length > 1 then .error .multipleSighashTypes
  else if inp.tapInternalKey ≠ Option.none ∧
      inp.tapInternalKey ≠ some derivedXOnlyKey then
    .error .incompatibleInput
  else if inp.witnessScriptKey ≠ Option.none ∧
      inp.witnessScriptKey ≠ some derivedXOnlyKey then
    .error .incompatibleInput
  else .ok (schnorrSign sighashDigest)

/-! ## Helper lemmas -/

/-- A bitwise or of naturals is zero exactly when both sides are. -/
theorem lorZeroIff (a b : Nat) : a ||| b = 0 ↔ a = 0 ∧ b = 0 := by
  constructor
  · intro h
    have ha : a = 0 := by
      apply Nat.eq_of_testBit_eq
      intro i
      have hbit := congrArg (fun n => n.testBit i) h
      simp [Nat.testBit_lor] at hbit
      simp [hbit.1]
    have hb : b = 0 := by
      apply Nat.eq_of_testBit_eq
      intro i
      have hbit := congrArg (fun n => n.testBit i) h
      simp [Nat.testBit_lor] at hbit
      simp [hbit.2]
    exact ⟨ha, hb⟩
  · rintro ⟨rfl, rfl⟩
    rfl

/-- The xor-accumulating fold of timingSafeEqual is zero exactly when the
accumulator started at zero and every pair agrees. -/
theorem foldOrZero (l : List (Nat × Nat)) (d : Nat) :
    (l.foldl (fun d p => d ||| (p.1 ^^^ p.2)) d = 0) ↔
      (d = 0 ∧ l.all (fun p => p.1 == p.2) = true) := by
  induction l generalizing d with
  | nil => simp
  | cons p l ih =>
    simp only [List.foldl_cons, ih, List.all_cons, lorZeroIff, Nat.xor_eq_zero,
      Bool.and_eq_true, beq_iff_eq]
    tauto

/-- Assembling prefix, length bytes and message bytes by three Uint8Array
set calls into a zero-initialised buffer of the exact total length is list
concatenation. -/
theorem setBytes_assemble (magic lb msg : List Nat) :
    setBytes (setBytes (setBytes
      (List.replicate (magic.length + lb.length + msg.length) 0) magic 0)
      lb magic.length) msg (magic.length + lb.length) = magic ++ lb ++ msg := by
  have h1 : setBytes (List.replicate (magic.length + lb.length + msg.length) 0)
      magic 0 = magic ++ List.replicate (lb.length + msg.length) 0 := by
    simp [setBytes, List.drop_replicate]
    omega
  rw [h1]
  have h2 : setBytes (magic ++ List.replicate (lb.length + msg.length) 0) lb
      magic.length = magic ++ lb ++ List.replicate msg.length 0 := by
    simp [setBytes]
  rw [h2]
  unfold setBytes
  have ht : ((magic ++ lb) ++ List.replicate msg.length 0).take
      (magic.length + lb.length) = magic ++ lb := by
    have hlen : (magic ++ lb).length = magic.length + lb.length := by simp
    rw [← hlen]
    exact List.take_left (magic ++ lb) (List.replicate msg.length 0)
  have hd : ((magic ++ lb) ++ List.replicate msg.length 0).drop
      (magic.length + lb.length + msg.length) = [] := by
    apply List.drop_eq_nil_of_le
    simp only [List.length_append, List.length_replicate]
    omega
  rw [ht, hd]
  simp

/-- Writing the flag byte at offset 0 and a 64-byte compact signature at
offset 1 into a zero-initialised 65-byte buffer yields flag :: compact. -/
theorem setBytes_sig (flag : Nat) (compact : List Nat)
    (h : compact.length = 64) :
    setBytes (setBytes (List.replicate 65 0) [flag] 0) compact 1 =
      flag :: compact := by
  have h1 : setBytes (List.replicate 65 0) [flag] 0 =
      flag :: List.replicate 64 0 := by
    simp [setBytes]
  rw [h1]
  simp [setBytes, h]

/-- Every failure path of setPassword leaves the persisted stores exactly as
they were: the pre-commit failures never touched them and a failed commit
transaction aborts without writing. -/
theorem setPassword_err_persisted (cfg : StorageConfig) (fs : FailSpec)
    (ent : Entropy) (now : Nat) (pw : String) (s : SessionState)
    (e : StoreError) (s' : SessionState)
    (hrun : setPassword cfg fs ent now pw s = .err e s') :
    s'.persisted = s.persisted := by
  simp only [setPassword] at hrun
  split at hrun
  · simp only [OpOut.err.injEq] at hrun
    rw [← hrun.2]
  split at hrun
  · simp only [OpOut.err.injEq] at hrun
    rw [← hrun.2]
  split at hrun
  · simp only [OpOut.err.injEq] at hrun
    rw [← hrun.2]
  split at hrun
  · simp only [OpOut.err.injEq] at hrun
    rw [← hrun.2]
  split at hrun
  · simp only [OpOut.err.injEq] at hrun
    rw [← hrun.2]
  split at hrun
  · simp only [OpOut.err.injEq] at hrun
    rw [← hrun.2]
  simp at hrun

/-- Every failure path of changePassword leaves the persisted stores exactly
as they were. -/
theorem changePassword_err_persisted (cfg : StorageConfig) (fs : FailSpec)
    (ent : Entropy) (now : Nat) (oldPw newPw : String)
    (optIter : Option Nat) (s : SessionState) (e : StoreError)
    (s' : SessionState)
    (hrun : changePassword cfg fs ent now oldPw newPw optIter s = .err e s') :
    s'.persisted = s.persisted := by
  simp only [changePassword] at hrun
  split at hrun
  · simp only [OpOut.err.injEq] at hrun
    rw [← hrun.2]
  split at hrun
  · simp only [OpOut.err.injEq] at hrun
    rw [← hrun.2]
  split at hrun
  · simp only [OpOut.err.injEq] at hrun
    rw [← hrun.2]
  split at hrun
  · simp only [OpOut.err.injEq] at hrun
    rw [← hrun.2]
  split at hrun
  · simp only [OpOut.err.injEq] at hrun
    rw [← hrun.2]
  split at hrun
  · simp only [OpOut.err.injEq] at hrun
    rw [← hrun.2]
  simp at hrun

/-- When the commit transaction is not the failing step, every failure path
of removePassword leaves the persisted stores exactly as they were (the
rewriting rollback only runs after a transaction failure). -/
theorem removePassword_err_persisted (cfg : StorageConfig) (fs : FailSpec)
    (ent : Entropy) (now : Nat) (pw : String) (s : SessionState)
    (e : StoreError) (s' : SessionState) (htx : fs.txFailAt = Option.none)
    (hrun : removePassword cfg fs ent now pw s = .err e s') :
    s'.persisted = s.persisted := by
  simp only [removePassword] at hrun
  split at hrun
  · simp only [OpOut.err.injEq] at hrun
    rw [← hrun.2]
  split at hrun
  · simp only [OpOut.err.injEq] at hrun
    rw [← hrun.2]
  split at hrun
  · simp only [OpOut.err.injEq] at hrun
    rw [← hrun.2]
  split at hrun
  · simp only [OpOut.err.injEq] at hrun
    rw [← hrun.2]
  split at hrun
  · simp only [OpOut.err.injEq] at hrun
    rw [← hrun.2]
  split at hrun
  · rename_i htx0
    rw [htx] at htx0
    simp at htx0
  simp at hrun

/-! ## Claims -/

/-- C7: exists() returns true if and only if the data store holds a record
under the mnemonic sentinel key; the salt, stored key envelope and metadata
row play no part, so a store where an aborted init wrote only metadata
reports exists() = false. -/
theorem exists_iff_wallet_payload (data : List (String × EncryptedData))
    (salt : Option (List Nat)) (sk : Option StoredKey)
    (md : Option StorageMetadata) :
    existsCheck ⟨data, salt, sk, md⟩ = true ↔
      (lookupData data MNEMONIC_KEY).isSome := by
  simp [existsCheck, hasWalletPayload]

/-- C8: for every payload, password, iteration override and every salt and IV
the encryption step draws, decrypting the envelope produced by
encryptWithPassword with the same password returns exactly the payload. -/
theorem decryptWithPassword_encryptWithPassword (plaintext : List Nat)
    (password : String) (iterationsOverride : Option Nat) (salt iv : List Nat) :
    decryptWithPassword
      (encryptWithPassword plaintext password iterationsOverride salt iv)
      password = .ok plaintext := by
  simp [decryptWithPassword, encryptWithPassword, deriveAesKeyFromPassword]

/-- C10: timingSafeEqual computes the same boolean function as the naive
comparison bytesEqual: true exactly on byte arrays of equal length that agree
pointwise. -/
theorem timingSafeEqual_eq_bytesEqual (a b : List Nat) :
    timingSafeEqual a b = bytesEqual a b := by
  unfold timingSafeEqual bytesEqual
  by_cases h : a.length = b.length
  · simp only [h, ne_eq, not_true_eq_false, if_false, ite_false]
    rw [Bool.eq_iff_iff]
    simp [foldOrZero, beq_iff_eq]
  · simp [h]

/-- C2: a pbkdf2Iterations value recorded in metadata is authoritative:
resolveIterations returns it regardless of the constructor override, the
environment override and production-likeness, and every successful
(non-read-only) password init of a store whose metadata records N derives its
key at exactly N iterations. -/
theorem resolveIterations_honors_metadata (cfg : StorageConfig)
    (md : StorageMetadata) (n : Nat) (ent : Entropy) (now : Nat) (pw : String)
    (s sOut : SessionState) (h : md.pbkdf2Iterations = some n)
    (hmd : s.persisted.metadata = some md)
    (hrun : init cfg ent now (some pw) false s = .ok sOut) :
    resolveIterations cfg (some md) = n ∧
    ∃ salt, sOut.encryptionKey = some (.password pw salt n) := by
  have hres : resolveIterations cfg (some md) = n := by
    simp [resolveIterations, h]
  refine ⟨hres, ?_⟩
  by_cases hconf :
      hasWalletPayload s.persisted = true ∧ md.hasPassword = false
  · simp [init, hmd, hconf] at hrun
  · by_cases hpw : md.hasPassword = true
    · cases hsalt : s.persisted.salt with
      | none => simp [init, hmd, hconf, hpw, hsalt] at hrun
      | some sl =>
        refine ⟨sl, ?_⟩
        simp [init, hmd, hconf, hpw, hsalt] at hrun
        rw [← hrun]
        simp [deriveKeyFromPassword, hres]
    · have hpay : ¬hasWalletPayload s.persisted = true := by
        intro hp
        exact hconf ⟨hp, by simpa using hpw⟩
      cases hsalt : s.persisted.salt with
      | none =>
        refine ⟨ent.freshSalt, ?_⟩
        simp [init, hmd, hconf, hpw, hpay, hsalt] at hrun
        rw [← hrun]
        simp [deriveKeyFromPassword, hres]
      | some sl =>
        refine ⟨sl, ?_⟩
        simp [init, hmd, hconf, hpw, hpay, hsalt] at hrun
        rw [← hrun]
        simp [deriveKeyFromPassword, hres]

/-- Concrete configuration for the C2 witness: every override present and a
production-like runtime, all of which must lose to the recorded count. -/
def c2cfg : StorageConfig :=
  { pbkdf2Iterations := some 3, envOverride := some 2, prodLike := true,
    canPersistCryptoKey := true }

/-- Concrete metadata recording 7 iterations. -/
def c2md : StorageMetadata :=
  { version := 1, hasPassword := true, hasBackup := false,
    lastBackupAt := Option.none, pbkdf2Iterations := some 7,
    createdAt := 5, updatedAt := 5 }

/-- Concrete entropy for the C2 witness. -/
def c2ent : Entropy :=
  { freshSalt := [3], freshKeyBytes := [4], ivs := fun _ => List.replicate 12 0 }

/-- Concrete already-configured password store for the C2 witness. -/
def c2state : SessionState :=
  { persisted :=
      { data := [(MNEMONIC_KEY,
          { version := some 1, iv := List.replicate 12 0,
            ciphertext := ⟨.password "pw" [1, 2] 7, [42]⟩ })],
        salt := some [1, 2], storedKey := Option.none, metadata := some c2md },
    encryptionKey := Option.none, isPasswordProtected := false }

/-- The state produced by the C2 witness init call. -/
def c2out : SessionState :=
  { persisted :=
      { data := [(MNEMONIC_KEY,
          { version := some 1, iv := List.replicate 12 0,
            ciphertext := ⟨.password "pw" [1, 2] 7, [42]⟩ })],
        salt := some [1, 2], storedKey := Option.none,
        metadata := some
          { version := 1, hasPassword := true, hasBackup := false,
            lastBackupAt := Option.none, pbkdf2Iterations := some 7,
            createdAt := 5, updatedAt := 9 } },
    encryptionKey := some (.password "pw" [1, 2] 7),
    isPasswordProtected := true }

/-- Witness for C2: a store recording 7 iterations resolves to 7 and unlocks
at 7 iterations, despite a constructor override of 3, an environment override
of 2 and a production-like runtime. -/
theorem resolveIterations_honors_metadata_witness :
    resolveIterations c2cfg (some c2md) = 7 ∧
    ∃ salt, c2out.encryptionKey = some (.password "pw" salt 7) :=
  resolveIterations_honors_metadata c2cfg c2md 7 c2ent 9 "pw" c2state c2out
    rfl rfl rfl

/-- C6: on a store that already holds a wallet payload, init without a
password when metadata records hasPassword = true fails with the
password-required error (UnauthorizedError in the spec taxonomy), and init
with a password when metadata records hasPassword = false fails with the
passwordless-conflict error (ConflictError); both failures return before any
key derivation or mode switch, leaving the instance state exactly as it
was. -/
theorem init_mode_guards (cfg : StorageConfig) (ent : Entropy) (now : Nat)
    (ro : Bool) (pw : String) (s : SessionState) (md : StorageMetadata)
    (hpayload : hasWalletPayload s.persisted = true)
    (hmd : s.persisted.metadata = some md) :
    (md.hasPassword = true →
      init cfg ent now Option.none ro s = .err .passwordRequired s) ∧
    (md.hasPassword = false →
      init cfg ent now (some pw) ro s = .err .passwordlessConflict s) := by
  constructor
  · intro h
    simp [init, hmd, hpayload, h]
  · intro h
    simp [init, hmd, hpayload, h]

/-- Concrete password-protected store with a wallet payload, for the C6
witness. -/
def c6aState : SessionState :=
  { persisted :=
      { data := [(MNEMONIC_KEY,
          { version := some 1, iv := List.replicate 12 0,
            ciphertext := ⟨.password "pw" [1] 7, [42]⟩ })],
        salt := some [1], storedKey := Option.none,
        metadata := some
          { version := 1, hasPassword := true, hasBackup := false,
            lastBackupAt := Option.none, pbkdf2Iterations := some 7,
            createdAt := 5, updatedAt := 5 } },
    encryptionKey := Option.none, isPasswordProtected := false }

/-- Concrete passwordless store with a wallet payload, for the C6 witness. -/
def c6bState : SessionState :=
  { persisted :=
      { data := [(MNEMONIC_KEY,
          { version := some 1, iv := List.replicate 12 0,
            ciphertext := ⟨.raw [4], [42]⟩ })],
        salt := Option.none, storedKey := some (.cryptoKey (.raw [4])),
        metadata := some
          { version := 1, hasPassword := false, hasBackup := false,
            lastBackupAt := Option.none, pbkdf2Iterations := Option.none,
            createdAt := 5, updatedAt := 5 } },
    encryptionKey := Option.none, isPasswordProtected := false }

/-- Witness for C6: a passwordless open of a password-protected store and a
password open of a passwordless store both fail with the claimed errors and
an unchanged state. -/
theorem init_mode_guards_witness :
    init c2cfg c2ent 9 Option.none false c6aState =
      .err .passwordRequired c6aState ∧
    init c2cfg c2ent 9 (some "pw") false c6bState =
      .err .passwordlessConflict c6bState :=
  ⟨(init_mode_guards c2cfg c2ent 9 false "x" c6aState _ rfl rfl).1 rfl,
   (init_mode_guards c2cfg c2ent 9 false "pw" c6bState _ rfl rfl).2 rfl⟩

/-- C4: a successful changePassword on a store whose metadata records
iteration count c re-records an iteration count nIter that is never lower
than c; with an explicit override r it records max r c, further raised to
the compiled-in default in a production-like runtime, and with no override
it records c (raised to the default in a production-like runtime). -/
theorem changePassword_never_lowers_iterations (cfg : StorageConfig)
    (fs : FailSpec) (ent : Entropy) (now : Nat) (oldPw newPw : String)
    (optIter : Option Nat) (s sOut : SessionState) (md : StorageMetadata)
    (c : Nat) (hmd : s.persisted.metadata = some md)
    (hc : md.pbkdf2Iterations = some c)
    (hrun : changePassword cfg fs ent now oldPw newPw optIter s = .ok sOut) :
    ∃ md', sOut.persisted.metadata = some md' ∧
      ∃ nIter, md'.pbkdf2Iterations = some nIter ∧ c ≤ nIter ∧
        (∀ r, optIter = some r →
          nIter =
            if cfg.prodLike then max (max r c) PBKDF2_ITERATIONS
            else max r c) ∧
        (optIter = Option.none →
          nIter = if cfg.prodLike then max c PBKDF2_ITERATIONS else c) := by
  simp only [changePassword] at hrun
  split at hrun
  · simp at hrun
  split at hrun
  · simp at hrun
  split at hrun
  · simp at hrun
  split at hrun
  · simp at hrun
  split at hrun
  · simp at hrun
  split at hrun
  · simp at hrun
  simp only [OpOut.ok.injEq] at hrun
  subst hrun
  have hres : resolveIterations cfg (some md) = c := by
    simp [resolveIterations, hc]
  have hnorm : ∀ base, normalizeIterationsForNewKey cfg base (some md) =
      max base (if cfg.prodLike then PBKDF2_ITERATIONS else c) := by
    intro base
    simp [normalizeIterationsForNewKey, hc]
  refine ⟨_, rfl, _, rfl, ?_, ?_, ?_⟩
  · rw [hmd, hnorm, hres]
    cases optIter with
    | none =>
      show c ≤ max c (if cfg.prodLike = true then PBKDF2_ITERATIONS else c)
      omega
    | some r => by_cases hr : r = 0 <;> simp [hr]
  · intro r hr
    subst hr
    rw [hmd, hnorm, hres]
    by_cases hr0 : r = 0 <;> by_cases hp : cfg.prodLike <;>
      simp [hr0, hp]
  · intro hnone
    subst hnone
    rw [hmd, hnorm, hres]
    by_cases hp : cfg.prodLike <;> simp [hp]

/-- Non-production configuration for the C4 witness. -/
def c4cfg : StorageConfig :=
  { pbkdf2Iterations := Option.none, envOverride := Option.none,
    prodLike := false, canPersistCryptoKey := true }

/-- Entropy for the C4 witness. -/
def c4ent : Entropy :=
  { freshSalt := [2], freshKeyBytes := [4],
    ivs := fun i => List.replicate 12 (i + 1) }

/-- Password-protected store recording 7 iterations, for the C4 witness. -/
def c4state : SessionState :=
  { persisted :=
      { data := [(MNEMONIC_KEY,
          { version := some 1, iv := List.replicate 12 0,
            ciphertext := ⟨.password "pw1" [1] 7, [42]⟩ })],
        salt := some [1], storedKey := Option.none,
        metadata := some
          { version := 1, hasPassword := true, hasBackup := false,
            lastBackupAt := Option.none, pbkdf2Iterations := some 7,
            createdAt := 5, updatedAt := 5 } },
    encryptionKey := some (.password "pw1" [1] 7),
    isPasswordProtected := true }

/-- The state produced by the C4 witness changePassword call. -/
def c4out : SessionState :=
  { persisted :=
      { data := [(MNEMONIC_KEY,
          { version := some 1, iv := List.replicate 12 1,
            ciphertext := ⟨.password "pw2" [2] 9, [42]⟩ })],
        salt := some [2], storedKey := Option.none,
        metadata := some
          { version := 1, hasPassword := true, hasBackup := false,
            lastBackupAt := Option.none, pbkdf2Iterations := some 9,
            createdAt := 5, updatedAt := 9 } },
    encryptionKey := some (.password "pw2" [2] 9),
    isPasswordProtected := true }

/-- Witness for C4: changing the password of a store recording 7 iterations
with an override of 9 records max 9 7 = 9. -/
theorem changePassword_never_lowers_iterations_witness :
    ∃ md', c4out.persisted.metadata = some md' ∧
      ∃ nIter, md'.pbkdf2Iterations = some nIter ∧ 7 ≤ nIter ∧
        (∀ r, (some 9 : Option Nat) = some r →
          nIter =
            if c4cfg.prodLike then max (max r 7) PBKDF2_ITERATIONS
            else max r 7) ∧
        ((some 9 : Option Nat) = Option.none →
          nIter = if c4cfg.prodLike then max 7 PBKDF2_ITERATIONS else 7) :=
  changePassword_never_lowers_iterations c4cfg FailSpec.none c4ent 9 "pw1"
    "pw2" (some 9) c4state c4out _ 7 rfl rfl rfl

/-- C3 (spec-modelled, the KeyManager.signPsbt source is absent from the
sources): the Taproot per-input guards reject, producing no signature:
(a) more than one requested sighash type is a hard error; (b) with at most
one sighash type, a tapInternalKey different from the derived x-only key is
rejected with IncompatibleInputError; (c) a witness script embedding a key
different from the derived key is likewise rejected. -/
theorem signPsbt_taproot_guards (schnorrSign : List Nat → List Nat)
    (derived digest : List Nat) (req : SignInputRequest)
    (inp : TaprootInputData) :
    ((req.sighashTypes.getD []).length > 1 →
      signTaprootInput schnorrSign derived digest req inp =
        .error .multipleSighashTypes) ∧
    (∀ k, (req.sighashTypes.getD []).length ≤ 1 →
      inp.tapInternalKey = some k → k ≠ derived →
      signTaprootInput schnorrSign derived digest req inp =
        .error .incompatibleInput) ∧
    (∀ k, (req.sighashTypes.getD []).length ≤ 1 →
      (inp.tapInternalKey = Option.none ∨ inp.tapInternalKey = some derived) →
      inp.witnessScriptKey = some k → k ≠ derived →
      signTaprootInput schnorrSign derived digest req inp =
        .error .incompatibleInput) := by
  refine ⟨?_, ?_, ?_⟩
  · intro h
    simp [signTaprootInput, h]
  · intro k hlen hk hne
    simp [signTaprootInput, Nat.not_lt.mpr hlen, hk, hne]
  · intro k hlen hint hw hne
    rcases hint with h0 | h0 <;>
      simp [signTaprootInput, Nat.not_lt.mpr hlen, h0, hw, hne]

/-- Witness for C3, Scenario D: a Taproot input carrying the unrelated
32-byte tapInternalKey of 0x07 bytes is rejected with IncompatibleInputError
while the derived key is a different 32-byte value. -/
theorem signPsbt_taproot_guards_witness :
    signTaprootInput (fun d => d) (List.replicate 32 1) [0]
      ⟨Option.none⟩ ⟨some (List.replicate 32 7), Option.none⟩ =
      .error .incompatibleInput :=
  (signPsbt_taproot_guards (fun d => d) (List.replicate 32 1) [0]
      ⟨Option.none⟩ ⟨some (List.replicate 32 7), Option.none⟩).2.1
    (List.replicate 32 7) (by decide) rfl (by decide)

/-- C9: createMessageHash double-SHA256-hashes the concatenation of the
Bitcoin signed-message prefix, the varint-encoded message length and the
message bytes; signMessageEcdsa returns the base64 encoding of exactly 65
bytes, one header byte equal to 27 + recoveryId + 4 followed by the 64-byte
compact signature. -/
theorem signMessageEcdsa_format (sha256 : List Nat → List Nat)
    (message : String) (sign : List Nat → List Nat → RecoverableSig)
    (msgHash priv : List Nat)
    (hcompact : (sign msgHash priv).compact.length = 64) :
    createMessageHash sha256 message =
      (encodeVarInt (stringToBytes message).length).map (fun lb =>
        sha256 (sha256 (stringToBytes bitcoinMessageMagic ++ lb ++
          stringToBytes message))) ∧
    signMessageEcdsa sign msgHash priv =
      bytesToBase64
        ((27 + (sign msgHash priv).recovery + 4) :: (sign msgHash priv).compact) ∧
    ((27 + (sign msgHash priv).recovery + 4) ::
        (sign msgHash priv).compact).length = 65 := by
  refine ⟨?_, ?_, ?_⟩
  · simp only [createMessageHash]
    cases hv : encodeVarInt (stringToBytes message).length with
    | none => simp
    | some lb =>
      simp only []
      rw [setBytes_assemble]
      simp
  · simp only [signMessageEcdsa]
    rw [setBytes_sig _ _ hcompact]
  · simp [hcompact]

/-- Witness for C9 with a concrete message, a stand-in hash function and a
stand-in recoverable signer returning recovery id 1 and a 64-byte compact
signature. -/
theorem signMessageEcdsa_format_witness :
    createMessageHash (fun l => l) "abc" =
      (encodeVarInt (stringToBytes "abc").length).map (fun lb =>
        stringToBytes bitcoinMessageMagic ++ lb ++ stringToBytes "abc") ∧
    signMessageEcdsa (fun _ _ => ⟨1, List.replicate 64 2⟩) [5] [6] =
      bytesToBase64 ((27 + 1 + 4) :: List.replicate 64 2) ∧
    ((27 + 1 + 4) :: List.replicate 64 2).length = 65 :=
  signMessageEcdsa_format (fun l => l) "abc"
    (fun _ _ => ⟨1, List.replicate 64 2⟩) [5] [6] (by simp)

/-- C1 (amended): when a password-lifecycle operation (setPassword,
changePassword, removePassword) fails, the persisted password mode flag,
salt, stored key envelope, metadata row and every encrypted data record are
byte-for-byte what they were before the call — provided the failing step is
not the commit transaction itself when the operation is removePassword
(setPassword and changePassword preserve the stores byte-for-byte on every
failure, including transaction failure).  Since the persisted state is
unchanged, decrypting with the prior key or credential still succeeds. -/
theorem passwordLifecycle_failure_keeps_persisted (cfg : StorageConfig)
    (fs : FailSpec) (ent : Entropy) (now : Nat) (op : LifecycleOp)
    (s : SessionState) (e : StoreError) (s' : SessionState)
    (hop : op.isPasswordLifecycle = true)
    (hscope : fs.txFailAt = Option.none ∨ op.isRemove = false)
    (hrun : runOp cfg fs ent now op s = .err e s') :
    s'.persisted = s.persisted := by
  cases op with
  | initOp pw ro => simp [LifecycleOp.isPasswordLifecycle] at hop
  | setPasswordOp pw =>
    exact setPassword_err_persisted cfg fs ent now pw s e s' hrun
  | changePasswordOp oldPw newPw optIter =>
    exact changePassword_err_persisted cfg fs ent now oldPw newPw optIter
      s e s' hrun
  | removePasswordOp pw =>
    rcases hscope with htx | habs
    · exact removePassword_err_persisted cfg fs ent now pw s e s' htx hrun
    · simp [LifecycleOp.isRemove] at habs

/-- Failure injection for the C1 counterexample and the removePassword tests:
the commit transaction fails, the rollback transaction succeeds. -/
def c1fs : FailSpec :=
  { deriveFail := false, generateFail := false,
    encryptFailAt := Option.none, txFailAt := some 0 }

/-- The state removePassword leaves behind on the C1 counterexample run: the
salt, metadata and mode are restored, but the data record has been
re-encrypted under the prior key with a fresh IV and is no longer
byte-identical. -/
def c1cexOut : SessionState :=
  { persisted :=
      { data := [(MNEMONIC_KEY,
          { version := some 1, iv := List.replicate 12 2,
            ciphertext := ⟨.password "pw1" [1] 7, [42]⟩ })],
        salt := some [1], storedKey := Option.none,
        metadata := some
          { version := 1, hasPassword := true, hasBackup := false,
            lastBackupAt := Option.none, pbkdf2Iterations := some 7,
            createdAt := 5, updatedAt := 5 } },
    encryptionKey := some (.password "pw1" [1] 7),
    isPasswordProtected := true }

/-- Counterexample to C1 as stated: removePassword failing at its commit
transaction (rollback succeeding) leaves the data record with a fresh IV —
same plaintext and prior key, but not byte-for-byte the prior record. -/
theorem passwordLifecycle_failure_counterexample :
    runOp c4cfg c1fs c4ent 9 (.removePasswordOp "pw1") c4state =
      .err .injected c1cexOut ∧
    c1cexOut.persisted ≠ c4state.persisted :=
  ⟨rfl, by decide⟩

/-- Passwordless store for the C1 and C5 witnesses. -/
def c1wstate : SessionState :=
  { persisted :=
      { data := [(MNEMONIC_KEY,
          { version := some 1, iv := List.replicate 12 0,
            ciphertext := ⟨.raw [4], [42]⟩ })],
        salt := Option.none, storedKey := some (.cryptoKey (.raw [4])),
        metadata := some
          { version := 1, hasPassword := false, hasBackup := false,
            lastBackupAt := Option.none, pbkdf2Iterations := Option.none,
            createdAt := 5, updatedAt := 5 } },
    encryptionKey := some (.raw [4]), isPasswordProtected := false }

/-- Failure injection for the C1 witness: the first re-encryption call
throws. -/
def c1wfs : FailSpec :=
  { deriveFail := false, generateFail := false, encryptFailAt := some 0,
    txFailAt := Option.none }

/-- Witness for the amended C1: setPassword forced to fail at its first
re-encryption really fails, and the persisted stores are untouched (the
error state is the entry state itself). -/
theorem passwordLifecycle_failure_keeps_persisted_witness :
    runOp c4cfg c1wfs c4ent 9 (.setPasswordOp "new-pw") c1wstate =
      .err .injected c1wstate ∧
    c1wstate.persisted = c1wstate.persisted :=
  ⟨rfl,
   passwordLifecycle_failure_keeps_persisted c4cfg c1wfs c4ent 9
     (.setPasswordOp "new-pw") c1wstate .injected c1wstate rfl
     (Or.inl rfl) rfl⟩

/-- C5: after every successfully completed non-read-only mutating operation
(init, setPassword, changePassword, removePassword) on a store satisfying
the salt-iff-password invariant, a salt record exists in the meta store if
and only if the metadata row records hasPassword = true: setPassword,
changePassword and password-mode init commit a salt together with
hasPassword = true, while removePassword and passwordless init leave
hasPassword = false with no salt record present. -/
theorem saltIffPassword_preserved (cfg : StorageConfig) (fs : FailSpec)
    (ent : Entropy) (now : Nat) (op : LifecycleOp) (s sOut : SessionState)
    (hro : op.readOnlyFlag = false) (hinv : saltIffPassword s.persisted)
    (hrun : runOp cfg fs ent now op s = .ok sOut) :
    saltIffPassword sOut.persisted := by
  cases op with
  | setPasswordOp pw =>
    simp only [runOp, setPassword] at hrun
    split at hrun
    · simp at hrun
    split at hrun
    · simp at hrun
    split at hrun
    · simp at hrun
    split at hrun
    · simp at hrun
    split at hrun
    · simp at hrun
    split at hrun
    · simp at hrun
    simp only [OpOut.ok.injEq] at hrun
    subst hrun
    simp [saltIffPassword]
  | changePasswordOp oldPw newPw optIter =>
    simp only [runOp, changePassword] at hrun
    split at hrun
    · simp at hrun
    split at hrun
    · simp at hrun
    split at hrun
    · simp at hrun
    split at hrun
    · simp at hrun
    split at hrun
    · simp at hrun
    split at hrun
    · simp at hrun
    simp only [OpOut.ok.injEq] at hrun
    subst hrun
    simp [saltIffPassword]
  | removePasswordOp pw =>
    simp only [runOp, removePassword] at hrun
    split at hrun
    · simp at hrun
    split at hrun
    · simp at hrun
    split at hrun
    · simp at hrun
    split at hrun
    · simp at hrun
    split at hrun
    · simp at hrun
    split at hrun
    · split at hrun
      · simp at hrun
      split at hrun
      · simp at hrun
      split at hrun
      · simp at hrun
      · simp at hrun
    simp only [OpOut.ok.injEq] at hrun
    subst hrun
    simp [saltIffPassword]
  | initOp pw ro =>
    have hro' : ro = false := by simpa [LifecycleOp.readOnlyFlag] using hro
    subst hro'
    simp only [runOp] at hrun
    cases pw with
    | some p =>
      by_cases hpw :
          (s.persisted.metadata.map (·.hasPassword)).getD false = true
      · have hnc : ¬(hasWalletPayload s.persisted = true ∧
            ∃ a, s.persisted.metadata = some a ∧ a.hasPassword = false) := by
          rintro ⟨-, a, ha, hfalse⟩
          rw [ha] at hpw
          simp [hfalse] at hpw
        cases hsalt : s.persisted.salt with
        | none => simp [init, hpw, hsalt, hnc] at hrun
        | some sl =>
          simp [init, hpw, hsalt, hnc] at hrun
          rw [← hrun]
          simp [saltIffPassword, updateMetadata, hsalt]
      · by_cases hconf : hasWalletPayload s.persisted = true ∧
            ∃ a, s.persisted.metadata = some a ∧ a.hasPassword = false
        · simp [init, hconf, hpw] at hrun
        · cases hsalt : s.persisted.salt with
          | none =>
            simp [init, hconf, hpw, hsalt] at hrun
            rw [← hrun]
            simp [saltIffPassword, updateMetadata]
          | some sl =>
            simp [init, hconf, hpw, hsalt] at hrun
            rw [← hrun]
            simp [saltIffPassword, updateMetadata, hsalt]
    | none =>
      by_cases hpw :
          (s.persisted.metadata.map (·.hasPassword)).getD false = true
      · have hpay : ¬hasWalletPayload s.persisted = true := by
          intro hp
          rw [init] at hrun
          simp [hpw, hp] at hrun
        cases hsk : s.persisted.storedKey with
        | some sk =>
          cases sk with
          | cryptoKey k =>
            simp [init, hpw, hpay, hsk] at hrun
            rw [← hrun]
            simp [saltIffPassword, updateMetadata]
          | envelope v bytes =>
            simp [init, hpw, hpay, hsk] at hrun
            rw [← hrun]
            simp [saltIffPassword, updateMetadata]
          | legacyRaw bytes =>
            simp [init, hpw, hpay, hsk] at hrun
            rw [← hrun]
            simp [saltIffPassword, updateMetadata]
        | none =>
          by_cases hcp : cfg.canPersistCryptoKey = true
          · simp [init, hpw, hpay, hsk, hcp] at hrun
            rw [← hrun]
            simp [saltIffPassword, updateMetadata]
          · simp [init, hpw, hpay, hsk, hcp] at hrun
            rw [← hrun]
            simp [saltIffPassword, updateMetadata]
      · have hsaltnone : s.persisted.salt = Option.none := by
          rw [saltIffPassword] at hinv
          cases hs : s.persisted.salt with
          | none => rfl
          | some sl =>
            rw [hs] at hinv
            simp at hinv
            exact absurd hinv hpw
        cases hsk : s.persisted.storedKey with
        | some sk =>
          cases sk with
          | cryptoKey k =>
            simp [init, hpw, hsk] at hrun
            rw [← hrun]
            simp [saltIffPassword, updateMetadata, hsaltnone]
          | envelope v bytes =>
            simp [init, hpw, hsk] at hrun
            rw [← hrun]
            simp [saltIffPassword, updateMetadata, hsaltnone]
          | legacyRaw bytes =>
            simp [init, hpw, hsk] at hrun
            rw [← hrun]
            simp [saltIffPassword, updateMetadata, hsaltnone]
        | none =>
          by_cases hpay : hasWalletPayload s.persisted = true
          · simp [init, hpw, hsk, hpay] at hrun
          · by_cases hcp : cfg.canPersistCryptoKey = true
            · simp [init, hpw, hsk, hpay, hcp] at hrun
              rw [← hrun]
              simp [saltIffPassword, updateMetadata, hsaltnone]
            · simp [init, hpw, hsk, hpay, hcp] at hrun
              rw [← hrun]
              simp [saltIffPassword, updateMetadata, hsaltnone]

/-- The state produced by the C5 witness setPassword call. -/
def c5out : SessionState :=
  { persisted :=
      { data := [(MNEMONIC_KEY,
          { version := some 1, iv := List.replicate 12 1,
            ciphertext := ⟨.password "new-pw" [2] PBKDF2_ITERATIONS, [42]⟩ })],
        salt := some [2], storedKey := Option.none,
        metadata := some
          { version := 1, hasPassword := true, hasBackup := false,
            lastBackupAt := Option.none,
            pbkdf2Iterations := some PBKDF2_ITERATIONS,
            createdAt := 5, updatedAt := 9 } },
    encryptionKey := some (.password "new-pw" [2] PBKDF2_ITERATIONS),
    isPasswordProtected := true }

/-- Witness for C5: setPassword on a passwordless store satisfying the
invariant commits a salt together with hasPassword = true. -/
theorem saltIffPassword_preserved_witness : saltIffPassword c5out.persisted :=
  saltIffPassword_preserved c4cfg FailSpec.none c4ent 9
    (.setPasswordOp "new-pw") c1wstate c5out rfl (by decide) rfl

end ZeldWallet
